import Mathlib

/-!
Shallow embedding of `telegram/helpers.py` (python-telegram-bot helpers module):
six pure helper functions over strings.  Python strings are modelled as
`List Char` (Unicode scalar sequences, matching Python's code-point view of
`str`); fallible functions return `Except PyError`.
-/

/-- Errors the helpers can raise.  `valueError`/`typeError` carry the message;
`conversionError` models the exception propagated by a failed `int(...)`
coercion. -/
inductive PyError where
  | valueError (msg : String)
  | typeError (msg : String)
  | conversionError
deriving DecidableEq, Repr

/-- The runtime value passed as the `version` argument of `escape_markdown` /
`mention_markdown`.  Python accepts any value there and applies `int(version)`:
`int n` is the integer `n` itself, `strDigits n` is a string (or other
non-`int` value) that `int(...)` parses to `n`, and `nonCoercible` is any value
on which `int(...)` raises.  Only `int 1` compares equal to the literal `1`
under Python `==` in `mention_markdown`. -/
inductive MarkdownVersion where
  | int (n : Int)
  | strDigits (n : Int)
  | nonCoercible
deriving DecidableEq, Repr

/-- The result of Python `int(version)`: `none` means the coercion raises. -/
def intOfVersion : MarkdownVersion → Option Int
  | .int n => some n
  | .strDigits n => some n
  | .nonCoercible => none

/-- Embeds `re.sub(f"([{...}])", r"\\\1", text)` for a character class of
literal characters `chars`: a single left-to-right pass over `text` inserting
one backslash immediately before each character that belongs to the class. -/
def escapeWith (chars : List Char) : List Char → List Char
  | [] => []
  | c :: rest =>
    if c ∈ chars then '\\' :: c :: escapeWith chars rest
    else c :: escapeWith chars rest

/-- The version-1 escape class, source string `r"_*`[" `. -/
def escapeCharsV1 : List Char := ['_', '*', '\x60', '[']

/-- The version-2 escape class for entity types pre and code: backslash and
backtick. -/
def escapeCharsV2Pre : List Char := ['\\', '\x60']

/-- The version-2 escape class for entity types text_link and custom_emoji:
backslash and closing parenthesis. -/
def escapeCharsV2Link : List Char := ['\\', ')']

/-- The full version-2 escape class, source string `r"\_*[]()~`>#+-=|{}.!"`. -/
def escapeCharsV2Full : List Char :=
  ['\\', '_', '*', '[', ']', '(', ')', '~', '\x60', '>', '#', '+', '-', '=',
   '|', '\x7b', '\x7d', '.', '!']

/-- Embedding of `escape_markdown(text, version, entity_type)`
(`telegram/helpers.py`).  `int(version)` selects the rule set: version 1 uses
the fixed class, version 2 narrows the class by entity type, any other integer
raises `ValueError`, and a non-coercible version propagates the conversion
error. -/
def escape_markdown (text : List Char) (version : MarkdownVersion)
    (entity_type : Option String) : Except PyError (List Char) :=
  match intOfVersion version with
  | none => .error PyError.conversionError
  | some n =>
    if n = 1 then
      .ok (escapeWith escapeCharsV1 text)
    else if n = 2 then
      if entity_type = some "pre" ∨ entity_type = some "code" then
        .ok (escapeWith escapeCharsV2Pre text)
      else if entity_type = some "text_link" ∨ entity_type = some "custom_emoji" then
        .ok (escapeWith escapeCharsV2Link text)
      else
        .ok (escapeWith escapeCharsV2Full text)
    else
      .error (PyError.valueError "Markdown version must be either 1 or 2!")

/-- The escape class the specification assigns to an integer version `n` and
entity-type hint, stated from the claim's words (version 1; version 2 with
pre/code; version 2 with text_link/custom_emoji; version 2 otherwise). -/
def activeClass (n : Int) (entity_type : Option String) : List Char :=
  if n = 1 then ['_', '*', '\x60', '[']
  else if entity_type = some "pre" ∨ entity_type = some "code" then
    ['\\', '\x60']
  else if entity_type = some "text_link" ∨ entity_type = some "custom_emoji" then
    ['\\', ')']
  else
    ['\\', '_', '*', '[', ']', '(', ')', '~', '\x60', '>', '#', '+', '-', '=',
     '|', '\x7b', '\x7d', '.', '!']

/-- Per-character table of Python stdlib `html.escape(s)` (quote=True), used
by `mention_html`: entity-encodes ampersand, angle brackets and both quote
characters, and leaves every other character unchanged. -/
def html_escape_char (c : Char) : List Char :=
  if c = '&' then "&amp;".data
  else if c = '<' then "&lt;".data
  else if c = '>' then "&gt;".data
  else if c = '"' then "&quot;".data
  else if c = '\x27' then "&#x27;".data
  else [c]

/-- Embedding of Python stdlib `html.escape` with its default `quote=True`:
the successive `str.replace` calls of the library amount to this
per-character expansion. -/
def html_escape (s : List Char) : List Char := s.flatMap html_escape_char

/-- Embedding of `mention_html(user_id, name)` (`telegram/helpers.py`): the
f-string interpolates the user id verbatim and the HTML-escaped name. -/
def mention_html (user_id : List Char) (name : List Char) : List Char :=
  "<a href=\"tg://user?id=".data ++ user_id ++ "\">".data ++
    html_escape name ++ "</a>".data

/-- Embedding of `mention_markdown(user_id, name, version)`
(`telegram/helpers.py`).  The source compares `version == 1` without integer
coercion, so only the integer value `1` takes the verbatim branch; every other
version value is handed to `escape_markdown`, whose errors propagate. -/
def mention_markdown (user_id : List Char) (name : List Char)
    (version : MarkdownVersion) : Except PyError (List Char) :=
  let tg_link := "tg://user?id=".data ++ user_id
  if version = MarkdownVersion.int 1 then
    .ok ("[".data ++ name ++ "](".data ++ tg_link ++ ")".data)
  else
    match escape_markdown name version none with
    | .error e => .error e
    | .ok escaped => .ok ("[".data ++ escaped ++ "](".data ++ tg_link ++ ")".data)

/-- The inline Markdown mention shape `[{name}](tg://user?id={user_id})`. -/
def md_user_link (user_id : List Char) (display : List Char) : List Char :=
  "[".data ++ display ++ "](tg://user?id=".data ++ user_id ++ ")".data

/-- A message-like value: an opaque structure whose sub-field for each
message-type tag is either truthy (`true`) or absent/falsy (`false`),
modelling Python's `message[message_type]` lookup. -/
structure MessageLike where
  field : String → Bool

/-- An update-like value: exposes an optional effective message. -/
structure UpdateLike where
  effective_message : Option MessageLike

/-- The argument of `effective_message_type`: a message, an update, or some
unrelated runtime value (carrying its type name for the error message). -/
inductive Entity where
  | message (m : MessageLike)
  | update (u : UpdateLike)
  | other (typeName : String)

/-- The `for message_type in MessageType` loop of `effective_message_type`:
returns the first tag in the fixed order whose sub-field is truthy. -/
def firstMatch (m : MessageLike) : List String → Option String
  | [] => none
  | t :: rest => if m.field t then some t else firstMatch m rest

/-- Embedding of `effective_message_type(entity)` (`telegram/helpers.py`).
`messageTypes` is the fixed ordered enumeration `telegram.constants.MessageType`;
its members are modelled from the spec ("a fixed, ordered enumeration of known
message-type identifiers") as an explicit list parameter, since
`telegram.constants` is not part of the sources under review. -/
def effective_message_type (messageTypes : List String) :
    Entity → Except PyError (Option String)
  | .message m => .ok (firstMatch m messageTypes)
  | .update u =>
    match u.effective_message with
    | none => .ok none
    | some m => .ok (firstMatch m messageTypes)
  | .other typeName =>
    .error (PyError.typeError
      ("The entity is neither Message nor Update (got: " ++ typeName ++ ")"))

/-- Modelled from the spec: `telegram.constants.MessageLimit.MIN_BOT_USERNAME_LENGTH`
is not under the sources reviewed here; the spec and the source docstring state
that the minimum is a 1-character base name plus the 3-character bot suffix,
i.e. 4 characters. -/
def MIN_BOT_USERNAME_LENGTH : Nat := 4

/-- Modelled from the spec: `telegram.constants.MessageLimit.MAX_BOT_USERNAME_LENGTH`
is not under the sources reviewed here; the source docstring states the
published platform maximum of 32 characters. -/
def MAX_BOT_USERNAME_LENGTH : Nat := 32

/-- One character of the `re.fullmatch(r"[A-Za-z0-9_]*", ...)` class: ASCII
letter, ASCII digit, or underscore. -/
def isUsernameChar (c : Char) : Bool := c.isAlpha || c.isDigit || c = '_'

/-- Python `s[:1].isdigit()`: false on the empty string, else tests the first
character. -/
def firstCharIsDigit : List Char → Bool
  | [] => false
  | c :: _ => c.isDigit

/-- Embedding of `is_valid_bot_username(bot_username)` (`telegram/helpers.py`):
nullity check, inclusive length bounds, then on the lower-cased value the
bot-suffix / leading-underscore / leading-digit checks, and finally the
character-class full match on the original string. -/
def is_valid_bot_username : Option (List Char) → Bool
  | none => false
  | some bot_username =>
    if ¬ (MIN_BOT_USERNAME_LENGTH ≤ bot_username.length ∧
          bot_username.length ≤ MAX_BOT_USERNAME_LENGTH) then
      false
    else
      let normalized_username := bot_username.map Char.toLower
      if ¬ (['b', 'o', 't'] <:+ normalized_username) ∨
          normalized_username.head? = some '_' ∨
          firstCharIsDigit normalized_username = true then
        false
      else
        bot_username.all isUsernameChar

/-- Modelled from the spec: `telegram.constants.MessageLimit.DEEP_LINK_LENGTH`
is not under the sources reviewed here; it is the platform's deep-link payload
length limit of 64 characters named by the error message. -/
def DEEP_LINK_LENGTH : Nat := 64

/-- One character of the deep-link payload class `[A-Za-z0-9_-]`. -/
def isDeepLinkChar (c : Char) : Bool := c.isAlpha || c.isDigit || c = '_' || c = '-'

/-- Embeds the truth value of `re.match(r"^[A-Za-z0-9_-]+$", payload)`.  In
Python's `re`, `$` (without `re.MULTILINE`) matches at the end of the string
or just before a single newline that ends the string, so a payload consisting
of one or more class characters followed by one trailing newline also
matches. -/
def deepLinkPayloadOk (p : List Char) : Bool :=
  let core := if p.getLast? = some '\n' then p.dropLast else p
  !core.isEmpty && core.all isDeepLinkChar

/-- Embedding of `create_deep_linked_url(bot_username, payload, group)`
(`telegram/helpers.py`): validate the username, return the bare base URL on an
absent or empty payload, then enforce the length limit and the payload regex
before appending the `start`/`startgroup` query. -/
def create_deep_linked_url (bot_username : List Char)
    (payload : Option (List Char)) (group : Bool) : Except PyError (List Char) :=
  if is_valid_bot_username (some bot_username) = false then
    .error (PyError.valueError "You must provide a valid bot_username.")
  else
    let base_url := "https://t.me/".data ++ bot_username
    match payload with
    | none => .ok base_url
    | some p =>
      if p = [] then .ok base_url
      else if DEEP_LINK_LENGTH < p.length then
        .error (PyError.valueError
          "The deep-linking payload must not exceed 64 characters.")
      else if deepLinkPayloadOk p = false then
        .error (PyError.valueError
          ("Only the following characters are allowed for deep-linked " ++
           "URLs: A-Z, a-z, 0-9, _ and -"))
      else
        .ok (base_url ++
          (if group then "?startgroup=".data else "?start=".data) ++ p)

/-- The escaping pass is pointwise: each active character expands to
backslash-then-character, every other character to itself. -/
theorem escapeWith_eq_flatMap (chars : List Char) (l : List Char) :
    escapeWith chars l =
      l.flatMap (fun c => if c ∈ chars then ['\\', c] else [c]) := by
  induction l with
  | nil => rfl
  | cons c rest ih =>
    by_cases h : c ∈ chars <;> simp [escapeWith, h, ih]

/-- The input is a sublist of its escaped form: escaping only inserts
backslashes. -/
theorem sublist_escapeWith (chars : List Char) (l : List Char) :
    List.Sublist l (escapeWith chars l) := by
  induction l with
  | nil => simp [escapeWith]
  | cons c rest ih =>
    simp only [escapeWith]
    by_cases h : c ∈ chars
    · rw [if_pos h]
      exact List.Sublist.cons '\\' (List.Sublist.cons₂ c ih)
    · rw [if_neg h]
      exact List.Sublist.cons₂ c ih

/-- Escaping a list containing at least one active character strictly
increases its length. -/
theorem length_lt_escapeWith (chars : List Char) (l : List Char)
    (h : ∃ c ∈ l, c ∈ chars) : l.length < (escapeWith chars l).length := by
  induction l with
  | nil => simp at h
  | cons c rest ih =>
    have hrest : rest.length ≤ (escapeWith chars rest).length :=
      (sublist_escapeWith chars rest).length_le
    simp only [escapeWith]
    by_cases hc : c ∈ chars
    · rw [if_pos hc]
      simp only [List.length_cons]
      omega
    · rw [if_neg hc]
      simp only [List.length_cons]
      obtain ⟨d, hd, hdc⟩ := h
      rcases List.mem_cons.mp hd with rfl | hd'
      · exact absurd hdc hc
      · have := ih ⟨d, hd', hdc⟩
        omega

/-- Escaping a list with no active character is the identity. -/
theorem escapeWith_eq_self (chars : List Char) (l : List Char)
    (h : ∀ c ∈ l, c ∉ chars) : escapeWith chars l = l := by
  induction l with
  | nil => rfl
  | cons c rest ih =>
    simp only [escapeWith]
    rw [if_neg (h c (List.mem_cons_self c rest)),
      ih (fun d hd => h d (List.mem_cons_of_mem c hd))]

/-- For a version coercing to 1 or 2, `escape_markdown` succeeds and applies
the escaping pass with the class selected by version and entity type. -/
theorem escape_markdown_eq_escapeWith (text : List Char)
    (version : MarkdownVersion) (e : Option String) (n : Int)
    (hn : intOfVersion version = some n) (h12 : n = 1 ∨ n = 2) :
    escape_markdown text version e = .ok (escapeWith (activeClass n e) text) := by
  rcases h12 with rfl | rfl
  · simp [escape_markdown, hn, activeClass, escapeCharsV1]
  · by_cases h1 : e = some "pre" ∨ e = some "code"
    · simp [escape_markdown, hn, activeClass, h1, escapeCharsV2Pre]
    · by_cases h2 : e = some "text_link" ∨ e = some "custom_emoji"
      · simp [escape_markdown, hn, activeClass, h1, h2, escapeCharsV2Link]
      · simp [escape_markdown, hn, activeClass, h1, h2, escapeCharsV2Full]

/-- C3: for every text, version coercing to 1 or 2, and entity-type hint,
`escape_markdown` returns the text with a single backslash inserted
immediately before each character of the active class and all other
characters unchanged, in one left-to-right pass, with the active class as
enumerated by the specification (`activeClass`). -/
theorem escape_markdown_classes (text : List Char) (version : MarkdownVersion)
    (e : Option String) (n : Int) (hn : intOfVersion version = some n)
    (h12 : n = 1 ∨ n = 2) :
    escape_markdown text version e =
      .ok (text.flatMap fun c =>
        if c ∈ activeClass n e then ['\\', c] else [c]) := by
  rw [escape_markdown_eq_escapeWith text version e n hn h12,
    escapeWith_eq_flatMap]

/-- Witness for C3 at text "a*b", version 1, no entity hint. -/
theorem escape_markdown_classes_wit :
    escape_markdown "a*b".data (.int 1) none =
      .ok ("a*b".data.flatMap fun c =>
        if c ∈ activeClass 1 none then ['\\', c] else [c]) :=
  escape_markdown_classes "a*b".data (.int 1) none 1 rfl (Or.inl rfl)

/-- C9: on text containing no character of the active class,
`escape_markdown` is the identity, for both valid versions and every
entity-type hint. -/
theorem escape_markdown_id_on_clean (text : List Char)
    (version : MarkdownVersion) (e : Option String) (n : Int)
    (hn : intOfVersion version = some n) (h12 : n = 1 ∨ n = 2)
    (hclean : ∀ c ∈ text, c ∉ activeClass n e) :
    escape_markdown text version e = .ok text := by
  rw [escape_markdown_eq_escapeWith text version e n hn h12,
    escapeWith_eq_self (activeClass n e) text hclean]

/-- Witness for C9 at text "hello", version 2, entity type pre. -/
theorem escape_markdown_id_on_clean_wit :
    escape_markdown "hello".data (.int 2) (some "pre") = .ok "hello".data :=
  escape_markdown_id_on_clean "hello".data (.int 2) (some "pre") 2 rfl
    (Or.inr rfl) (by decide)

/-- C10: `escape_markdown` is not idempotent: for both valid versions, every
entity-type hint, and every input containing at least one character of the
active class, escaping the escaped output yields a strictly different
string. -/
theorem escape_markdown_not_idempotent (x : List Char)
    (version : MarkdownVersion) (e : Option String) (n : Int)
    (hn : intOfVersion version = some n) (h12 : n = 1 ∨ n = 2)
    (hx : ∃ c ∈ x, c ∈ activeClass n e) :
    ∃ y z, escape_markdown x version e = .ok y ∧
      escape_markdown y version e = .ok z ∧ z ≠ y := by
  refine ⟨escapeWith (activeClass n e) x,
    escapeWith (activeClass n e) (escapeWith (activeClass n e) x),
    escape_markdown_eq_escapeWith x version e n hn h12,
    escape_markdown_eq_escapeWith _ version e n hn h12, ?_⟩
  obtain ⟨c, hc, hcc⟩ := hx
  have hc' : c ∈ escapeWith (activeClass n e) x :=
    (sublist_escapeWith (activeClass n e) x).subset hc
  have hlt := length_lt_escapeWith (activeClass n e)
    (escapeWith (activeClass n e) x) ⟨c, hc', hcc⟩
  intro heq
  rw [heq] at hlt
  exact lt_irrefl _ hlt

/-- Witness for C10 at input "*", version 1, no entity hint. -/
theorem escape_markdown_not_idempotent_wit :
    ∃ y z, escape_markdown "*".data (.int 1) none = .ok y ∧
      escape_markdown y (.int 1) none = .ok z ∧ z ≠ y :=
  escape_markdown_not_idempotent "*".data (.int 1) none 1 rfl (Or.inl rfl)
    ⟨'*', by decide, by decide⟩

/-- C7: `escape_markdown` raises `ValueError` exactly when the version
coerces to an integer other than 1 or 2, propagates the conversion error of a
non-coercible version, and succeeds for every version coercing to 1 or 2,
regardless of text and entity-type hint. -/
theorem escape_markdown_version_errors (text : List Char) (e : Option String)
    (version : MarkdownVersion) :
    (intOfVersion version = none →
      escape_markdown text version e = .error PyError.conversionError) ∧
    (∀ n : Int, intOfVersion version = some n → n ≠ 1 → n ≠ 2 →
      escape_markdown text version e =
        .error (PyError.valueError "Markdown version must be either 1 or 2!")) ∧
    (∀ n : Int, intOfVersion version = some n → (n = 1 ∨ n = 2) →
      ∃ s, escape_markdown text version e = .ok s) := by
  refine ⟨?_, ?_, ?_⟩
  · intro h
    simp [escape_markdown, h]
  · intro n hn h1 h2
    simp [escape_markdown, hn, h1, h2]
  · intro n hn h12
    exact ⟨_, escape_markdown_eq_escapeWith text version e n hn h12⟩

/-- Witness for C7: version 3 raises the invalid-version `ValueError`. -/
theorem escape_markdown_version_errors_wit :
    escape_markdown "x".data (.int 3) none =
      .error (PyError.valueError "Markdown version must be either 1 or 2!") :=
  (escape_markdown_version_errors "x".data none (.int 3)).2.1 3 rfl
    (by decide) (by decide)

/-- C8: `mention_html` returns exactly the anchor tag with the user id
interpolated verbatim and the name entity-encoded character by character
(ampersand, angle brackets and both quote characters); it is a total function
with no error cases. -/
theorem mention_html_spec (user_id : List Char) (name : List Char) :
    mention_html user_id name =
      "<a href=\"tg://user?id=".data ++ user_id ++ "\">".data ++
        (name.flatMap fun c =>
          if c = '&' then "&amp;".data
          else if c = '<' then "&lt;".data
          else if c = '>' then "&gt;".data
          else if c = '"' then "&quot;".data
          else if c = '\x27' then "&#x27;".data
          else [c]) ++ "</a>".data := rfl

/-- Regrouping of the f-string concatenation of `mention_markdown` into the
`md_user_link` shape. -/
theorem md_user_link_eq (user_id : List Char) (display : List Char) :
    "[".data ++ display ++ "](".data ++ ("tg://user?id=".data ++ user_id) ++
      ")".data = md_user_link user_id display := by
  have h : "](tg://user?id=".data = "](".data ++ "tg://user?id=".data := rfl
  simp [md_user_link, h, List.append_assoc]

/-- C6: `mention_markdown` returns `[{name}](tg://user?id={user_id})` with the
name verbatim for version 1, with the name passed through `escape_markdown`
(no entity-type hint) for any version of 2 or greater, and propagates the
escaper's invalid-version `ValueError` for unsupported integer versions. -/
theorem mention_markdown_spec (user_id : List Char) (name : List Char) :
    (mention_markdown user_id name (.int 1) = .ok (md_user_link user_id name)) ∧
    (∀ n : Int, 2 ≤ n → mention_markdown user_id name (.int n) =
      Except.map (fun escaped => md_user_link user_id escaped)
        (escape_markdown name (.int n) none)) ∧
    (∀ n : Int, n ≠ 1 → n ≠ 2 → mention_markdown user_id name (.int n) =
      .error (PyError.valueError "Markdown version must be either 1 or 2!")) := by
  refine ⟨?_, ?_, ?_⟩
  · rw [mention_markdown, if_pos rfl, md_user_link_eq]
  · intro n h2
    have hne : MarkdownVersion.int n ≠ MarkdownVersion.int 1 := by
      intro h
      cases h
      omega
    rw [mention_markdown, if_neg hne]
    cases hesc : escape_markdown name (.int n) none with
    | error e => simp [hesc, Except.map]
    | ok escaped => simp [hesc, Except.map, md_user_link]
  · intro n h1 h2
    have hne : MarkdownVersion.int n ≠ MarkdownVersion.int 1 := by
      intro h
      cases h
      exact h1 rfl
    rw [mention_markdown, if_neg hne]
    have herr := (escape_markdown_version_errors name none (.int n)).2.1 n rfl h1 h2
    rw [herr]

/-- Witness for C6: version 2 escapes the display name through the escaper. -/
theorem mention_markdown_spec_wit :
    mention_markdown "123".data "A*B".data (.int 2) =
      Except.map (fun escaped => md_user_link "123".data escaped)
        (escape_markdown "A*B".data (.int 2) none) :=
  (mention_markdown_spec "123".data "A*B".data).2.1 2 (by decide)

/-- The loop of the classifier finds no tag exactly when no sub-field is
truthy. -/
theorem firstMatch_eq_none_iff (m : MessageLike) (types : List String) :
    firstMatch m types = none ↔ ∀ t ∈ types, m.field t = false := by
  induction types with
  | nil => simp [firstMatch]
  | cons t rest ih =>
    by_cases h : m.field t <;> simp [firstMatch, h, ih]

/-- The loop of the classifier returns a tag exactly when it is the first one
in the fixed order whose sub-field is truthy. -/
theorem firstMatch_eq_some_iff (m : MessageLike) (types : List String)
    (name : String) :
    firstMatch m types = some name ↔
      ∃ pre post, types = pre ++ name :: post ∧ m.field name = true ∧
        ∀ t ∈ pre, m.field t = false := by
  induction types with
  | nil =>
    constructor
    · intro h
      exact absurd h (by simp [firstMatch])
    · rintro ⟨pre, post, hpre, -, -⟩
      cases pre <;> simp at hpre
  | cons t rest ih =>
    by_cases h : m.field t = true
    · rw [show firstMatch m (t :: rest) = some t from by simp [firstMatch, h],
        Option.some.injEq]
      constructor
      · rintro rfl
        exact ⟨[], rest, rfl, h, by simp⟩
      · rintro ⟨pre, post, hpre, hname, hall⟩
        cases pre with
        | nil =>
          rw [List.nil_append] at hpre
          exact (List.cons.inj hpre).1
        | cons p ps =>
          rw [List.cons_append] at hpre
          have h1 : t = p := (List.cons.inj hpre).1
          exact absurd h (by rw [h1]; simp [hall p (List.mem_cons_self p ps)])
    · have h' : m.field t = false := by
        revert h
        cases m.field t <;> simp
      rw [show firstMatch m (t :: rest) = firstMatch m rest from by
        simp [firstMatch, h'], ih]
      constructor
      · rintro ⟨pre, post, hpre, hname, hall⟩
        refine ⟨t :: pre, post, by rw [List.cons_append, hpre], hname, ?_⟩
        intro x hx
        rcases List.mem_cons.mp hx with rfl | hx'
        · exact h'
        · exact hall x hx'
      · rintro ⟨pre, post, hpre, hname, hall⟩
        cases pre with
        | nil =>
          rw [List.nil_append] at hpre
          rw [(List.cons.inj hpre).1] at h'
          rw [hname] at h'
          exact absurd h' (by simp)
        | cons p ps =>
          rw [List.cons_append] at hpre
          exact ⟨ps, post, (List.cons.inj hpre).2, hname,
            fun x hx => hall x (List.mem_cons_of_mem p hx)⟩

/-- C4: the classifier resolves an update's effective message (empty result
when absent), returns the first tag of the fixed ordered enumeration whose
sub-field on the message is truthy, returns no result when no field matches,
and raises `TypeError` on a value that is neither message-like nor
update-like. -/
theorem effective_message_type_spec (messageTypes : List String)
    (m : MessageLike) (u : UpdateLike) (typeName : String) :
    (u.effective_message = none →
      effective_message_type messageTypes (.update u) = .ok none) ∧
    (∀ m', u.effective_message = some m' →
      effective_message_type messageTypes (.update u) =
        effective_message_type messageTypes (.message m')) ∧
    (effective_message_type messageTypes (.message m) = .ok none ↔
      ∀ t ∈ messageTypes, m.field t = false) ∧
    (∀ name, effective_message_type messageTypes (.message m) = .ok (some name) ↔
      ∃ pre post, messageTypes = pre ++ name :: post ∧ m.field name = true ∧
        ∀ t ∈ pre, m.field t = false) ∧
    (∃ msg, effective_message_type messageTypes (.other typeName) =
      .error (PyError.typeError msg)) := by
  refine ⟨?_, ?_, ?_, ?_, ⟨_, rfl⟩⟩
  · intro h
    simp [effective_message_type, h]
  · intro m' h
    simp [effective_message_type, h]
  · simp [effective_message_type, firstMatch_eq_none_iff]
  · intro name
    simp [effective_message_type, firstMatch_eq_some_iff]

/-- Witness for C4: an update with no effective message classifies to no
result. -/
theorem effective_message_type_spec_wit :
    effective_message_type ["text"] (.update ⟨none⟩) = .ok none :=
  (effective_message_type_spec ["text"] ⟨fun _ => false⟩ ⟨none⟩ "int").1 rfl

/-- Python's `s[:1].isdigit()` is false exactly when the first character, if
any, is not a digit. -/
theorem firstCharIsDigit_eq_false_iff (l : List Char) :
    firstCharIsDigit l = false ↔ ∀ c, l.head? = some c → c.isDigit = false := by
  cases l with
  | nil => simp [firstCharIsDigit]
  | cons c rest => simp [firstCharIsDigit]

/-- C2: the username validator accepts exactly the present strings whose
length lies within the configured inclusive bounds, whose lower-cased form
ends in "bot", does not start with an underscore, starts with a non-digit,
and whose every original character is an ASCII letter, digit or underscore;
it is a total boolean function, so it never raises. -/
theorem is_valid_bot_username_spec (u : Option (List Char)) :
    is_valid_bot_username u = true ↔
      ∃ s, u = some s ∧
        MIN_BOT_USERNAME_LENGTH ≤ s.length ∧
        s.length ≤ MAX_BOT_USERNAME_LENGTH ∧
        ['b', 'o', 't'] <:+ s.map Char.toLower ∧
        (s.map Char.toLower).head? ≠ some '_' ∧
        (∀ c, (s.map Char.toLower).head? = some c → c.isDigit = false) ∧
        (∀ c ∈ s, isUsernameChar c = true) := by
  cases u with
  | none => simp [is_valid_bot_username]
  | some s =>
    constructor
    · intro h
      simp only [is_valid_bot_username] at h
      by_cases h1 : MIN_BOT_USERNAME_LENGTH ≤ s.length ∧
          s.length ≤ MAX_BOT_USERNAME_LENGTH
      · rw [if_neg (not_not_intro h1)] at h
        by_cases h2 : ¬ (['b', 'o', 't'] <:+ s.map Char.toLower) ∨
            (s.map Char.toLower).head? = some '_' ∨
            firstCharIsDigit (s.map Char.toLower) = true
        · rw [if_pos h2] at h
          exact absurd h (by simp)
        · rw [if_neg h2] at h
          push_neg at h2
          obtain ⟨hsuf, hhead, hdig⟩ := h2
          have hd : firstCharIsDigit (s.map Char.toLower) = false := by
            revert hdig
            cases firstCharIsDigit (s.map Char.toLower) <;> simp
          exact ⟨s, rfl, h1.1, h1.2, hsuf, hhead,
            (firstCharIsDigit_eq_false_iff _).mp hd, List.all_eq_true.mp h⟩
      · rw [if_pos h1] at h
        exact absurd h (by simp)
    · rintro ⟨s', hs, hmin, hmax, hsuf, hhead, hdig, hall⟩
      have hss : s = s' := (Option.some.injEq s s').mp hs
      subst hss
      simp only [is_valid_bot_username]
      rw [if_neg (not_not_intro ⟨hmin, hmax⟩)]
      have hcond : ¬ (¬ (['b', 'o', 't'] <:+ s.map Char.toLower) ∨
          (s.map Char.toLower).head? = some '_' ∨
          firstCharIsDigit (s.map Char.toLower) = true) := by
        push_neg
        refine ⟨hsuf, hhead, ?_⟩
        rw [(firstCharIsDigit_eq_false_iff _).mpr hdig]
        simp
      rw [if_neg hcond]
      exact List.all_eq_true.mpr hall

/-- A non-empty payload whose characters all lie in the allowed deep-link
class passes the payload regex. -/
theorem deepLinkPayloadOk_of_all (p : List Char) (hne : p ≠ [])
    (hall : p.all isDeepLinkChar = true) : deepLinkPayloadOk p = true := by
  have hlast : ¬ (p.getLast? = some '\n') := by
    intro h
    exact absurd (List.all_eq_true.mp hall _ (List.mem_of_getLast?_eq_some h))
      (by decide)
  simp only [deepLinkPayloadOk]
  rw [if_neg hlast]
  cases p with
  | nil => exact absurd rfl hne
  | cons c rest => simp [List.isEmpty_cons, hall]

/-- C5: for a valid bot username, the deep-link builder returns the bare base
URL `https://t.me/{username}` on an absent or empty payload, and for a
non-empty payload within the length limit and the allowed character class it
appends `?startgroup={payload}` when the group flag is set and
`?start={payload}` otherwise. -/
theorem create_deep_linked_url_format (u p : List Char)
    (hu : is_valid_bot_username (some u) = true)
    (hne : p ≠ []) (hlen : p.length ≤ DEEP_LINK_LENGTH)
    (hchars : p.all isDeepLinkChar = true) :
    create_deep_linked_url u none false = .ok ("https://t.me/".data ++ u) ∧
    create_deep_linked_url u none true = .ok ("https://t.me/".data ++ u) ∧
    create_deep_linked_url u (some []) false = .ok ("https://t.me/".data ++ u) ∧
    create_deep_linked_url u (some []) true = .ok ("https://t.me/".data ++ u) ∧
    create_deep_linked_url u (some p) true =
      .ok ("https://t.me/".data ++ u ++ "?startgroup=".data ++ p) ∧
    create_deep_linked_url u (some p) false =
      .ok ("https://t.me/".data ++ u ++ "?start=".data ++ p) := by
  have hok := deepLinkPayloadOk_of_all p hne hchars
  have hlen' : ¬ (DEEP_LINK_LENGTH < p.length) := Nat.not_lt.mpr hlen
  refine ⟨?_, ?_, ?_, ?_, ?_, ?_⟩ <;>
    simp [create_deep_linked_url, hu, hne, hlen', hok, List.append_assoc]

/-- Witness for C5 at username "abot", payload "a". -/
theorem create_deep_linked_url_format_wit :
    create_deep_linked_url "abot".data (some "a".data) false =
      .ok ("https://t.me/".data ++ "abot".data ++ "?start=".data ++ "a".data) :=
  (create_deep_linked_url_format "abot".data "a".data (by decide) (by decide)
    (by decide) (by decide)).2.2.2.2.2

/-- C1, behavior of the code at the failing input: the newline character is
outside the allowed payload class `[A-Za-z0-9_-]`, yet a payload consisting of
allowed characters followed by one trailing newline is accepted and
interpolated into the returned URL instead of raising `ValueError`, because
Python's `$` in `re.match(r"^[A-Za-z0-9_-]+$", payload)` also matches just
before a trailing newline. -/
theorem create_deep_linked_url_trailing_newline :
    isDeepLinkChar '\n' = false ∧
    create_deep_linked_url "abcbot".data (some "abc\n".data) false =
      .ok "https://t.me/abcbot?start=abc\n".data :=
  ⟨by decide, rfl⟩
